import Mathlib

/-!
Shallow embedding of the authentication/session subsystem of the
UserManagement repository: JWT issuance and verification (utils/jwt.js),
password policy and hashing (utils/validationHelper.js, utils/authHelper.js),
the session controllers (controllers/userController.js and its in-memory
revision), and the authorization gate (middlewares/authMiddleware.js,
middlewares/roleMiddleware.js).

Modelling conventions, stated once:
* A signed JWT string is idealized as a `SignedToken` record carrying its
  payload and the signing secret; signature verification is modelled as
  equality of secrets (standard idealization of an unforgeable MAC), and
  JavaScript string equality (`===`, `Array.includes`, `filter(t !== tok)`)
  on token strings is modelled as decidable equality of `SignedToken`
  (JWT serialization is injective).
* bcrypt is idealized as an injective tagging function `bcryptHash`;
  `comparePassword` checks provenance, mirroring `bcrypt.compare` returning
  true exactly for the plaintext the digest was produced from.  No claim
  here depends on salt nondeterminism.
* The MongoDB user store is modelled as a `List UserRec` with
  `findOne`/`findById` as first-match lookup and `save` as in-place
  replacement of the found document, matching the narrow store contract the
  controllers use.  Fresh id generation (`crypto.randomUUID`, ObjectId) is
  modelled by the `nextId` counter.
* `jsonwebtoken` rejects a token when the clock reaches `exp`
  (`clockTimestamp >= payload.exp` throws `TokenExpiredError`), hence a
  token is accepted exactly when `now < exp`.
-/

namespace UserMgmt

/-- JSON-like values, used to model response payloads so that presence and
absence of object keys (e.g. `password`, `refreshTokens`) can be stated. -/
inductive JVal where
  | jnull : JVal
  | jstr : String → JVal
  | jnum : Nat → JVal
  | jbool : Bool → JVal
  | jarr : List JVal → JVal
  | jobj : List (String × JVal) → JVal

/-- Keys of a JSON object (empty for non-objects). -/
def JVal.objKeys : JVal → List String
  | .jobj fields => fields.map Prod.fst
  | _ => []

/-- Whether a JSON value is an object carrying key `k`. -/
def JVal.hasKey (k : String) (v : JVal) : Bool :=
  (JVal.objKeys v).contains k

/-- Decoded JWT payload: the access token signs `{id, email, role, iat, exp}`,
the refresh token signs `{id, iat, exp}` (email and role absent). -/
structure JwtClaims where
  id : Nat
  email : Option String
  role : Option String
  iat : Nat
  exp : Nat
deriving DecidableEq, Repr

/-- A signed JWT, idealized as payload plus signing secret (see file header). -/
structure SignedToken where
  payload : JwtClaims
  secret : String
deriving DecidableEq, Repr

/-- Environment configuration: the two signing secrets and the two expiry
durations (`JWT_SECRET`, `JWT_REFRESH_SECRET`, `JWT_EXPIRES_IN`,
`JWT_REFRESH_EXPIRES_IN`), durations in seconds. -/
structure Config where
  jwtSecret : String
  jwtRefreshSecret : String
  jwtExpiresIn : Nat
  jwtRefreshExpiresIn : Nat
deriving Repr

/-- Identity fields the controllers pass to the token helpers
(`{id: user._id, email: user.email, role: user.role}`). -/
structure UserIdentity where
  id : Nat
  email : String
  role : String
deriving DecidableEq, Repr

/-- Embeds `generateToken` of utils/jwt.js (part_012): signs `{id, email, role}` with
`JWT_SECRET`, expiry `JWT_EXPIRES_IN` from now. -/
def generateToken (u : UserIdentity) (now : Nat) (cfg : Config) : SignedToken :=
  { payload :=
      { id := u.id, email := some u.email, role := some u.role
        iat := now, exp := now + cfg.jwtExpiresIn }
    secret := cfg.jwtSecret }

/-- Embeds `generateRefreshToken` of utils/jwt.js (part_012): signs `{id}` only, with
the distinct `JWT_REFRESH_SECRET`, expiry `JWT_REFRESH_EXPIRES_IN` from now. -/
def generateRefreshToken (u : UserIdentity) (now : Nat) (cfg : Config) : SignedToken :=
  { payload :=
      { id := u.id, email := none, role := none
        iat := now, exp := now + cfg.jwtRefreshExpiresIn }
    secret := cfg.jwtRefreshSecret }

/-- Embeds `verifyToken` of utils/jwt.js (part_012): `jwt.verify(token, JWT_SECRET)`,
rethrown as `Error("Invalid or expired token")` on any failure. -/
def verifyToken (t : SignedToken) (now : Nat) (cfg : Config) : Except String JwtClaims :=
  if t.secret = cfg.jwtSecret ∧ now < t.payload.exp then .ok t.payload
  else .error "Invalid or expired token"

/-- Embeds `verifyRefreshToken` of utils/jwt.js (part_012): `jwt.verify(token,
JWT_REFRESH_SECRET)`, rethrown as `Error("Invalid or expired refresh token")`. -/
def verifyRefreshToken (t : SignedToken) (now : Nat) (cfg : Config) : Except String JwtClaims :=
  if t.secret = cfg.jwtRefreshSecret ∧ now < t.payload.exp then .ok t.payload
  else .error "Invalid or expired refresh token"

/-- Embeds `generateTokenPair` of utils/authHelper.js (part_013): access token and
refresh token minted together; no side effect. -/
def generateTokenPair (u : UserIdentity) (now : Nat) (cfg : Config) :
    SignedToken × SignedToken :=
  (generateToken u now cfg, generateRefreshToken u now cfg)

/-- Uppercase character class of validator's isStrongPassword (`/^[A-Z]$/`). -/
def isUpperChar (c : Char) : Bool :=
  if 'A' ≤ c ∧ c ≤ 'Z' then true else false

/-- Lowercase character class of validator's isStrongPassword (`/^[a-z]$/`). -/
def isLowerChar (c : Char) : Bool :=
  if 'a' ≤ c ∧ c ≤ 'z' then true else false

/-- Digit character class of validator's isStrongPassword (`/^[0-9]$/`). -/
def isDigitChar (c : Char) : Bool :=
  if '0' ≤ c ∧ c ≤ '9' then true else false

/-- Code points of validator's symbol class
`/^[-#!$@£%^&*()_+|~=\x60\x7b\x7d[]:";<>?,./ ]$/` (includes the backtick,
braces, apostrophe and the space character), spelled as code points. -/
def symbolCodes : List Nat :=
  [45, 35, 33, 36, 64, 163, 37, 94, 38, 42, 40, 41, 95, 43, 124, 126, 61,
   96, 123, 125, 91, 93, 58, 34, 59, 39, 60, 62, 63, 44, 46, 47, 32]

/-- Symbol character class of validator's isStrongPassword. -/
def isSymbolChar (c : Char) : Bool :=
  symbolCodes.contains c.toNat

/-- Number of characters of `s` in class `p` (validator's analyzePassword). -/
def countClass (p : Char → Bool) (s : String) : Nat :=
  (s.data.filter p).length

/-- Options of validator's isStrongPassword after merging the caller's options
with the library defaults. -/
structure StrongPasswordOptions where
  minLength : Nat
  minLowercase : Nat
  minUppercase : Nat
  minNumbers : Nat
  minSymbols : Nat
deriving Repr

/-- The options in force at the isValidPassword call site: the source passes
`{minLength: 8, minLowercase: 1, minUppercase: 1, minNumbers: 1}` and
validator merges the omitted `minSymbols` from its library default `1`. -/
def hashPolicyOptions : StrongPasswordOptions :=
  { minLength := 8, minLowercase := 1, minUppercase := 1
    minNumbers := 1, minSymbols := 1 }

/-- validator.isStrongPassword: every class count must reach its minimum. -/
def isStrongPassword (s : String) (o : StrongPasswordOptions) : Bool :=
  decide (o.minLength ≤ s.length) &&
  decide (o.minLowercase ≤ countClass isLowerChar s) &&
  decide (o.minUppercase ≤ countClass isUpperChar s) &&
  decide (o.minNumbers ≤ countClass isDigitChar s) &&
  decide (o.minSymbols ≤ countClass isSymbolChar s)

/-- Result record of the validation helpers (`{isValid, error}`). -/
structure ValidationResult where
  isValid : Bool
  error : Option String
deriving DecidableEq, Repr

/-- Embeds `isValidPassword` of utils/validationHelper.js (part_011): required check
(JS falsiness of the string), length check, then validator.isStrongPassword
with the call-site options (see `hashPolicyOptions`). -/
def isValidPassword (p : String) : ValidationResult :=
  if p = "" then { isValid := false, error := some "Password is required" }
  else if p.length < 8 then
    { isValid := false, error := some "Password must be at least 8 characters long" }
  else if isStrongPassword p hashPolicyOptions then
    { isValid := true, error := none }
  else
    { isValid := false
      error := some "Password must contain uppercase, lowercase, number, and special character" }

/-- Idealized bcrypt digest (see file header). -/
def bcryptHash (password : String) : String :=
  "bcrypt$" ++ password

/-- Embeds `hashPassword` of utils/authHelper.js (part_013): throws the validation
error when `isValidPassword` rejects, otherwise returns the bcrypt digest. -/
def hashPassword (password : String) : Except String String :=
  let v := isValidPassword password
  if v.isValid then .ok (bcryptHash password)
  else .error (v.error.getD "")

/-- Embeds `comparePassword` of utils/authHelper.js (part_013): `bcrypt.compare`. -/
def comparePassword (password digest : String) : Bool :=
  digest = bcryptHash password

/-- A stored user document: models/userModels.js and the documents built by
`createUser` (`{id, name, email, password, role, refreshTokens}`). -/
structure UserRec where
  id : Nat
  name : String
  email : String
  password : String
  role : String
  refreshTokens : List SignedToken
deriving DecidableEq, Repr

/-- The user store plus a fresh-id counter (see file header). -/
structure AppState where
  users : List UserRec
  nextId : Nat
deriving Repr

/-- Rendering of a stored token into a response: the serialized JWT string,
kept as an opaque marker here (only key structure of payloads matters). -/
def tokenToJson (t : SignedToken) : JVal :=
  .jobj [("jwt", .jnum t.payload.id)]

/-- Raw JSON serialization of a user document, as `res.json` would emit the
plain object: every own field appears, `password` and `refreshTokens`
included. -/
def userToJson (u : UserRec) : JVal :=
  .jobj [("id", .jnum u.id), ("name", .jstr u.name), ("email", .jstr u.email),
         ("password", .jstr u.password), ("role", .jstr u.role),
         ("refreshTokens", .jarr (u.refreshTokens.map tokenToJson))]

/-- Embeds `sanitizeUser` of utils/authHelper.js (part_013): destructures `password`
and `refreshTokens` out and spreads the remaining fields. -/
def sanitizeUser (u : UserRec) : JVal :=
  .jobj [("id", .jnum u.id), ("name", .jstr u.name), ("email", .jstr u.email),
         ("role", .jstr u.role)]

/-- Response record delivered to the client. -/
structure ApiResponse where
  status : Nat
  success : Bool
  message : String
  data : JVal

/-- Modelled from the spec: utils/responseHandler.js is not among the sources;
per section 6 of the specification the envelope is
`{success: bool, message: string, data?: object}` with success status
defaulting to 200 when the controller passes none. -/
def sendSuccessResponse (data : JVal) (message : String) (status : Nat) : ApiResponse :=
  { status := status, success := true, message := message, data := data }

/-- Modelled from the spec: error counterpart of `sendSuccessResponse`; the
status is always passed explicitly at the call sites, and no data object is
attached. -/
def sendErrorResponse (message : String) (status : Nat) : ApiResponse :=
  { status := status, success := false, message := message, data := .jnull }

/-- JavaScript falsiness of an optional string field of a request body
(`undefined` or the empty string). -/
def falsy : Option String → Bool
  | none => true
  | some s => s = ""

/-- Replace the first element satisfying `p` by its image under `f`: the JS
pattern of mutating the object returned by `find`/`findOne` and saving it. -/
def updateFirstBy (p : UserRec → Bool) (f : UserRec → UserRec) :
    List UserRec → List UserRec
  | [] => []
  | u :: rest => if p u then f u :: rest else u :: updateFirstBy p f rest

/-- Body of a registration request (`{name, email, role, password}`). -/
structure RegisterRequest where
  name : Option String
  email : Option String
  role : Option String
  password : Option String
deriving Repr

/-- Embeds `getAllUsers` of the in-memory controller revision (part_001, first
revision): 404 on an empty store, otherwise the raw `users` array is sent as
the response data with no field stripping. -/
def getAllUsers (s : AppState) : ApiResponse :=
  if s.users.length = 0 then sendErrorResponse "No users found" 404
  else sendSuccessResponse (.jarr (s.users.map userToJson))
    "Users retrieved successfully" 200

/-- Embeds `createUser` of controllers/userController.js: missing-field check,
duplicate check by `findOne({email})` (first match on exact field equality),
`hashPassword` (a thrown policy error reaches the top-level error middleware
of server.js, yielding its 500 response), role default `role || "User"`,
refresh token pushed onto the new document, 201 with sanitized user shape. -/
def createUser (s : AppState) (req : RegisterRequest) (now : Nat) (cfg : Config) :
    ApiResponse × AppState :=
  if falsy req.name || falsy req.email || falsy req.password then
    (sendErrorResponse "Name, email, and password are required" 400, s)
  else
    let name := req.name.getD ""
    let email := req.email.getD ""
    let password := req.password.getD ""
    match s.users.find? (fun u => u.email == email) with
    | some _ => (sendErrorResponse "Email already exists" 409, s)
    | none =>
      match hashPassword password with
      | .error _ => (sendErrorResponse "Something went wrong!" 500, s)
      | .ok digest =>
        let role := match req.role with
          | none => "User"
          | some r => if r = "" then "User" else r
        let uid := s.nextId
        let pair := generateTokenPair ⟨uid, email, role⟩ now cfg
        let newUser : UserRec :=
          { id := uid, name := name, email := email, password := digest
            role := role, refreshTokens := [pair.2] }
        (sendSuccessResponse
          (.jobj [("user", .jobj [("id", .jnum uid), ("name", .jstr name),
                    ("email", .jstr email), ("role", .jstr role)]),
                  ("accessToken", tokenToJson pair.1),
                  ("refreshToken", tokenToJson pair.2)])
          "User created successfully" 201,
         { users := s.users ++ [newUser], nextId := s.nextId + 1 })

/-- Embeds `loginUser` of controllers/userController.js: lookup by email, password
comparison, one shared `Invalid email or password` 401 for both failures; on
success a token pair is minted and the refresh token pushed onto the found
user's collection. -/
def loginUser (s : AppState) (email password : String) (now : Nat) (cfg : Config) :
    ApiResponse × AppState :=
  match s.users.find? (fun u => u.email == email) with
  | none => (sendErrorResponse "Invalid email or password" 401, s)
  | some user =>
    if comparePassword password user.password then
      let pair := generateTokenPair ⟨user.id, user.email, user.role⟩ now cfg
      let users' := updateFirstBy (fun u => u.email == email)
        (fun u => { u with refreshTokens := u.refreshTokens ++ [pair.2] }) s.users
      (sendSuccessResponse
        (.jobj [("accessToken", tokenToJson pair.1),
                ("refreshToken", tokenToJson pair.2)])
        "Login successful" 200,
       { s with users := users' })
    else (sendErrorResponse "Invalid email or password" 401, s)

/-- Embeds `logoutUser` of controllers/userController.js: 400 when the body carries
no refresh token; the refresh token is verified (a verification error is
caught as 401), the user looked up by the decoded id, membership in the
user's collection required, then all occurrences of the token are filtered
out of the collection and the document saved. -/
def logoutUser (s : AppState) (refreshToken : Option SignedToken) (now : Nat)
    (cfg : Config) : ApiResponse × AppState :=
  match refreshToken with
  | none => (sendErrorResponse "Refresh token is required" 400, s)
  | some tok =>
    match verifyRefreshToken tok now cfg with
    | .error _ => (sendErrorResponse "Invalid refresh token" 401, s)
    | .ok decoded =>
      match s.users.find? (fun u => u.id == decoded.id) with
      | none => (sendErrorResponse "Invalid refresh token" 401, s)
      | some user =>
        if user.refreshTokens.contains tok then
          let users' := updateFirstBy (fun u => u.id == decoded.id)
            (fun u => { u with refreshTokens :=
                u.refreshTokens.filter (fun t => !(t == tok)) }) s.users
          (sendSuccessResponse .jnull "Logout successful" 200,
           { s with users := users' })
        else (sendErrorResponse "Invalid refresh token" 401, s)

/-- Embeds `refreshAccessToken` of controllers/userController.js: 400 when the body
carries no refresh token; verification failure is caught as 401 `Invalid or
expired refresh token`; absent user or non-membership gives 401 `Invalid
refresh token`; on success a fresh access token is minted and returned as
`{email, accessToken}` with the store untouched. -/
def refreshAccessToken (s : AppState) (refreshToken : Option SignedToken)
    (now : Nat) (cfg : Config) : ApiResponse × AppState :=
  match refreshToken with
  | none => (sendErrorResponse "Refresh token is required" 400, s)
  | some tok =>
    match verifyRefreshToken tok now cfg with
    | .error _ => (sendErrorResponse "Invalid or expired refresh token" 401, s)
    | .ok decoded =>
      match s.users.find? (fun u => u.id == decoded.id) with
      | none => (sendErrorResponse "Invalid refresh token" 401, s)
      | some user =>
        if user.refreshTokens.contains tok then
          let pair := generateTokenPair ⟨user.id, user.email, user.role⟩ now cfg
          (sendSuccessResponse
            (.jobj [("email", .jstr user.email),
                    ("accessToken", tokenToJson pair.1)])
            "Token refreshed successfully" 200, s)
        else (sendErrorResponse "Invalid refresh token" 401, s)

/-- Embeds `getCurrentUserProfile` of the in-memory controller revision: lookup by
the authenticated id, 404 when absent, sanitized user otherwise. -/
def getCurrentUserProfile (s : AppState) (userId : Nat) : ApiResponse :=
  match s.users.find? (fun u => u.id == userId) with
  | none => sendErrorResponse "User not found" 404
  | some u => sendSuccessResponse (sanitizeUser u) "Profile retrieved successfully" 200

/-- Field update applied by `updateCurrentUserProfile`: email replaced when
the request carries one differing from the stored one, name replaced when
the request carries one; `refreshTokens` and `password` untouched. -/
def applyProfileEdit (name email : Option String) (changeEmail : Bool)
    (u : UserRec) : UserRec :=
  let u1 := if changeEmail then { u with email := email.getD "" } else u
  if falsy name then u1 else { u1 with name := name.getD "" }

/-- Embeds `updateCurrentUserProfile` of controllers/userController.js: 404 for a
missing user; when the email is being changed, uniqueness against all other
users is checked first (409 on conflict); then the found document is mutated
and saved, and the updated identity fields are returned. -/
def updateCurrentUserProfile (s : AppState) (userId : Nat)
    (name email : Option String) : ApiResponse × AppState :=
  match s.users.find? (fun u => u.id == userId) with
  | none => (sendErrorResponse "User not found" 404, s)
  | some user =>
    let changeEmail := !(falsy email) && !(email.getD "" == user.email)
    if changeEmail then
      match s.users.find?
          (fun u => u.email == email.getD "" && !(u.id == userId)) with
      | some _ => (sendErrorResponse "Email already exists" 409, s)
      | none =>
        let user' := applyProfileEdit name email true user
        let users' := updateFirstBy (fun u => u.id == userId)
          (applyProfileEdit name email true) s.users
        (sendSuccessResponse
          (.jobj [("id", .jnum user'.id), ("name", .jstr user'.name),
                  ("email", .jstr user'.email), ("role", .jstr user'.role)])
          "Profile updated successfully" 200,
         { s with users := users' })
    else
      let user' := applyProfileEdit name email false user
      let users' := updateFirstBy (fun u => u.id == userId)
        (applyProfileEdit name email false) s.users
      (sendSuccessResponse
        (.jobj [("id", .jnum user'.id), ("name", .jstr user'.name),
                ("email", .jstr user'.email), ("role", .jstr user'.role)])
        "Profile updated successfully" 200,
       { s with users := users' })

/-- Splitting of a character list at every occurrence of `sep`, accumulator
style; mirrors JavaScript `String.split` on a single-character separator
(`"".split` gives `[""]`, adjacent separators give empty pieces). -/
def splitCharsAux (sep : Char) : List Char → List Char → List (List Char)
  | [], acc => [acc.reverse]
  | c :: cs, acc =>
    if c = sep then acc.reverse :: splitCharsAux sep cs []
    else splitCharsAux sep cs (c :: acc)

/-- JavaScript `s.split(sep)` for a one-character separator. -/
def jsSplit (s : String) (sep : Char) : List String :=
  (splitCharsAux sep s.data []).map (fun l => String.mk l)

/-- Embeds `authHeader && authHeader.split(" ")[1]` followed by the `!token` check of
middlewares/authMiddleware.js: the credential is whatever stands after the
first space, with no inspection of the scheme word; an absent header, an
empty header, a header without a second space-separated part, or an empty
second part all leave no token. -/
def extractToken (authHeader : Option String) : Option String :=
  match authHeader with
  | none => none
  | some h =>
    if h = "" then none
    else match (jsSplit h ' ').get? 1 with
    | none => none
    | some w => if w = "" then none else some w

/-- Digit value of a character, if any. -/
def charDigit? (c : Char) : Option Nat :=
  if '0' ≤ c ∧ c ≤ '9' then some (c.toNat - '0'.toNat) else none

/-- Decimal number parser on characters. -/
def parseNatAux : List Char → Nat → Option Nat
  | [], acc => some acc
  | c :: cs, acc =>
    match charDigit? c with
    | some d => parseNatAux cs (acc * 10 + d)
    | none => none

/-- Decimal number parser on strings (empty string rejected). -/
def parseNat? (s : String) : Option Nat :=
  match s.data with
  | [] => none
  | l => parseNatAux l 0

/-- Decoding of an optional claim field from its wire form (`-` for absent). -/
def decodeOptStr (s : String) : Option String :=
  if s = "-" then none else some (s.drop 1)

/-- Structural parse of a presented token string into a `SignedToken`; stands
for jsonwebtoken's decoding of the dot-separated JWT wire format.  A string
that does not parse fails verification, as a malformed JWT does. -/
def decodeToken (s : String) : Option SignedToken :=
  match jsSplit s '.' with
  | [tag, i, e, r, ia, ex, sec] =>
    if tag = "jwt" then
      match parseNat? i, parseNat? ia, parseNat? ex with
      | some id, some iat, some exp =>
        some { payload := { id := id, email := decodeOptStr e
                            role := decodeOptStr r, iat := iat, exp := exp }
               secret := sec }
      | _, _, _ => none
    else none
  | _ => none

/-- Embeds `verifyToken` applied to a presented token string: malformed strings fail
with the same coarse error jsonwebtoken failures are rethrown as. -/
def verifyTokenStr (s : String) (now : Nat) (cfg : Config) : Except String JwtClaims :=
  match decodeToken s with
  | none => .error "Invalid or expired token"
  | some t => verifyToken t now cfg

/-- Outcome of a middleware stage: a denial response or the authenticated
claims attached to the request context. -/
inductive GateOutcome where
  | deny : Nat → String → GateOutcome
  | allow : JwtClaims → GateOutcome
deriving DecidableEq, Repr

/-- Embeds `authenticateToken` of middlewares/authMiddleware.js: no extracted token
gives 401 `No token provided`; a failed verification gives 403
`Invalid token`; otherwise the decoded claims are attached and control
passes on. -/
def authenticateToken (authHeader : Option String) (now : Nat) (cfg : Config) :
    GateOutcome :=
  match extractToken authHeader with
  | none => .deny 401 "No token provided"
  | some tokenStr =>
    match verifyTokenStr tokenStr now cfg with
    | .error _ => .deny 403 "Invalid token"
    | .ok decoded => .allow decoded

/-- Embeds `authorizeRole` of middlewares/roleMiddleware.js: denial 403 unless the
attached claims carry a role contained in the required role list (a missing
role field never matches, as `roles.includes(undefined)` is false). -/
def authorizeRole (roles : List String) (user : Option JwtClaims) : GateOutcome :=
  match user with
  | none => .deny 403 "Access denied: insufficient permissions"
  | some c =>
    match c.role with
    | none => .deny 403 "Access denied: insufficient permissions"
    | some r =>
      if roles.contains r then .allow c
      else .deny 403 "Access denied: insufficient permissions"

/-- The two-stage gate as composed on the protected routes:
`authenticateToken` then `authorizeRole(...)`. -/
def protectedGate (roles : List String) (authHeader : Option String)
    (now : Nat) (cfg : Config) : GateOutcome :=
  match authenticateToken authHeader now cfg with
  | .deny st m => .deny st m
  | .allow c => authorizeRole roles (some c)

/-- ASCII lowercasing of a character, as JavaScript `toLowerCase` acts on the
ASCII range; used to state equality of emails up to letter case. -/
def asciiLower (c : Char) : Char :=
  if 'A' ≤ c ∧ c ≤ 'Z' then Char.ofNat (c.toNat + 32) else c

/-- ASCII lowercasing of a string. -/
def lowerStr (s : String) : String :=
  String.mk (s.data.map asciiLower)

/-- No token of `u`'s collection is missing from `v`'s. -/
def tokensKept (u v : UserRec) : Prop :=
  ∀ t, t ∈ u.refreshTokens → t ∈ v.refreshTokens

/-- Pointwise over the store: every user present before is still present at
the same position afterwards with none of its refresh tokens removed (extra
users may be appended). -/
def noTokenDropped : List UserRec → List UserRec → Prop
  | [], _ => True
  | _ :: _, [] => False
  | u :: us, v :: vs => tokensKept u v ∧ noTokenDropped us vs

/-- A test configuration: distinct signing secrets, 1 hour access expiry,
7 days refresh expiry. -/
def cfg0 : Config :=
  { jwtSecret := "access-secret", jwtRefreshSecret := "refresh-secret"
    jwtExpiresIn := 3600, jwtRefreshExpiresIn := 604800 }

/-- A refresh token issued to user 1 at time 0 under `cfg0`. -/
def rt0 : SignedToken :=
  generateRefreshToken { id := 1, email := "alice@example.com", role := "User" } 0 cfg0

/-- A stored user holding `rt0` in their refresh-token collection. -/
def alice : UserRec :=
  { id := 1, name := "Alice", email := "alice@example.com"
    password := bcryptHash "Password@123", role := "User"
    refreshTokens := [rt0] }

/-- A store containing `alice` only. -/
def st0 : AppState := { users := [alice], nextId := 2 }

/-- The store after `alice` logs out with `rt0` at time 10. -/
def st1 : AppState := (logoutUser st0 (some rt0) 10 cfg0).2

/-- A seeded user shaped like the entries of models/userModels.js. -/
def seedUser : UserRec :=
  { id := 1, name := "Alice Johnson", email := "alice@example.com"
    password := bcryptHash "password123", role := "Admin", refreshTokens := [] }

/-- A store holding the seeded user. -/
def seedState : AppState := { users := [seedUser], nextId := 2 }

/-- A stored user whose email carries an uppercase letter. -/
def mixedCaseUser : UserRec :=
  { id := 1, name := "Alice", email := "Alice@example.com"
    password := bcryptHash "Password@123", role := "User", refreshTokens := [] }

/-- A store holding only `mixedCaseUser`. -/
def mixedCaseState : AppState := { users := [mixedCaseUser], nextId := 2 }

/-- A registration request whose email matches `mixedCaseUser`'s up to letter
case but not byte-for-byte. -/
def lowerCaseReq : RegisterRequest :=
  { name := some "Bob", email := some "alice@example.com"
    role := none, password := some "Passw0rd@1" }

/-- Identity claims of user 1, as passed to the token helpers. -/
def uid0 : UserIdentity :=
  { id := 1, email := "alice@example.com", role := "User" }

/-- A registration request whose email equals `mixedCaseUser`'s exactly. -/
def exactDupReq : RegisterRequest :=
  { name := some "Bob", email := some "Alice@example.com"
    role := none, password := some "Passw0rd@1" }

/-- A registration request that self-assigns the `Admin` role. -/
def adminReq : RegisterRequest :=
  { name := some "Eve", email := some "eve@example.com"
    role := some "Admin", password := some "Passw0rd@1" }

theorem tokensKept_refl (u : UserRec) : tokensKept u u :=
  fun _ h => h

theorem noTokenDropped_refl : ∀ l : List UserRec, noTokenDropped l l
  | [] => trivial
  | u :: us => ⟨tokensKept_refl u, noTokenDropped_refl us⟩

theorem noTokenDropped_append (l l₂ : List UserRec) : noTokenDropped l (l ++ l₂) := by
  induction l with
  | nil => trivial
  | cons a l ih => exact ⟨tokensKept_refl a, ih⟩

theorem noTokenDropped_updateFirstBy (p : UserRec → Bool) (f : UserRec → UserRec)
    (hf : ∀ u, tokensKept u (f u)) :
    ∀ l : List UserRec, noTokenDropped l (updateFirstBy p f l) := by
  intro l
  induction l with
  | nil => trivial
  | cons a l ih =>
    unfold updateFirstBy
    by_cases hpa : p a = true
    · rw [if_pos hpa]
      exact ⟨hf a, noTokenDropped_refl l⟩
    · rw [if_neg hpa]
      exact ⟨tokensKept_refl a, ih⟩

theorem find?_updateFirstBy (p : UserRec → Bool) (f : UserRec → UserRec)
    (l : List UserRec) (u : UserRec) (h : l.find? p = some u)
    (hf : p (f u) = true) :
    (updateFirstBy p f l).find? p = some (f u) := by
  induction l with
  | nil => simp [List.find?] at h
  | cons a l ih =>
    cases hpa : p a with
    | true =>
      rw [List.find?_cons_of_pos _ hpa] at h
      cases h
      unfold updateFirstBy
      rw [if_pos hpa]
      exact List.find?_cons_of_pos _ hf
    | false =>
      rw [List.find?_cons_of_neg _ (by simp [hpa])] at h
      unfold updateFirstBy
      rw [if_neg (by simp [hpa])]
      rw [List.find?_cons_of_neg _ (by simp [hpa])]
      exact ih h

theorem hashPassword_ok (p : String) (h : (isValidPassword p).isValid = true) :
    hashPassword p = Except.ok (bcryptHash p) := by
  unfold hashPassword
  simp only [h, ite_true]

theorem contains_filter_ne_self (l : List SignedToken) (tok : SignedToken) :
    (l.filter (fun t => !(t == tok))).contains tok = false := by
  rw [List.contains_eq_any_beq]
  simp [List.any_eq_true, List.mem_filter]
  intro x _ hne heq
  exact hne heq.symm

theorem verifyRefreshToken_ok (t : SignedToken) (now : Nat) (cfg : Config)
    (d : JwtClaims) (h : verifyRefreshToken t now cfg = Except.ok d) :
    d = t.payload ∧ t.secret = cfg.jwtRefreshSecret ∧ now < t.payload.exp := by
  unfold verifyRefreshToken at h
  by_cases hc : t.secret = cfg.jwtRefreshSecret ∧ now < t.payload.exp
  · rw [if_pos hc] at h
    cases h
    exact ⟨rfl, hc.1, hc.2⟩
  · rw [if_neg hc] at h
    simp at h

theorem applyProfileEdit_tokens (nm em : Option String) (b : Bool) (u : UserRec) :
    (applyProfileEdit nm em b u).refreshTokens = u.refreshTokens := by
  unfold applyProfileEdit
  by_cases hb : b = true
  · by_cases hf : falsy nm = true
    · simp [hb, hf]
    · simp [hb, hf]
  · by_cases hf : falsy nm = true
    · simp [hb, hf]
    · simp [hb, hf]

theorem refreshAccessToken_state (s : AppState) (tok : Option SignedToken)
    (now : Nat) (cfg : Config) : (refreshAccessToken s tok now cfg).2 = s := by
  rcases tok with _ | t
  · rfl
  · cases hv : verifyRefreshToken t now cfg with
    | error e => simp only [refreshAccessToken, hv]
    | ok d =>
      cases hf : s.users.find? (fun u => u.id == d.id) with
      | none => simp only [refreshAccessToken, hv, hf]
      | some u =>
        by_cases hc : u.refreshTokens.contains t = true
        · simp only [refreshAccessToken, hv, hf, if_pos hc]
        · simp only [refreshAccessToken, hv, hf, if_neg hc]

theorem refreshAccessToken_success_shape (s : AppState) (tok : Option SignedToken)
    (now : Nat) (cfg : Config)
    (h : (refreshAccessToken s tok now cfg).1.success = true) :
    (refreshAccessToken s tok now cfg).1.status = 200 ∧
    JVal.objKeys (refreshAccessToken s tok now cfg).1.data = ["email", "accessToken"] := by
  rcases tok with _ | t
  · simp only [refreshAccessToken, sendErrorResponse] at h
    exact absurd h (by decide)
  · cases hv : verifyRefreshToken t now cfg with
    | error e =>
      simp only [refreshAccessToken, hv, sendErrorResponse] at h
      exact absurd h (by decide)
    | ok d =>
      cases hf : s.users.find? (fun u => u.id == d.id) with
      | none =>
        simp only [refreshAccessToken, hv, hf, sendErrorResponse] at h
        exact absurd h (by decide)
      | some u =>
        by_cases hc : u.refreshTokens.contains t = true
        · simp only [refreshAccessToken, hv, hf, if_pos hc]
          exact ⟨rfl, rfl⟩
        · simp only [refreshAccessToken, hv, hf, if_neg hc, sendErrorResponse] at h
          exact absurd h (by decide)

theorem createUser_noTokenDropped (s : AppState) (req : RegisterRequest)
    (now : Nat) (cfg : Config) :
    noTokenDropped s.users (createUser s req now cfg).2.users := by
  by_cases h1 : (falsy req.name || falsy req.email || falsy req.password) = true
  · simp only [createUser, if_pos h1]
    exact noTokenDropped_refl _
  · cases hfind : s.users.find? (fun u => u.email == req.email.getD "") with
    | some u =>
      simp only [createUser, if_neg h1, hfind]
      exact noTokenDropped_refl _
    | none =>
      cases hh : hashPassword (req.password.getD "") with
      | error e =>
        simp only [createUser, if_neg h1, hfind, hh]
        exact noTokenDropped_refl _
      | ok digest =>
        simp only [createUser, if_neg h1, hfind, hh]
        exact noTokenDropped_append _ _

theorem loginUser_noTokenDropped (s : AppState) (e p : String) (now : Nat)
    (cfg : Config) : noTokenDropped s.users (loginUser s e p now cfg).2.users := by
  cases hfind : s.users.find? (fun u => u.email == e) with
  | none =>
    simp only [loginUser, hfind]
    exact noTokenDropped_refl _
  | some u =>
    by_cases hc : comparePassword p u.password = true
    · simp only [loginUser, hfind, if_pos hc]
      exact noTokenDropped_updateFirstBy _ _
        (fun v t ht => List.mem_append_left _ ht) s.users
    · simp only [loginUser, hfind, if_neg hc]
      exact noTokenDropped_refl _

theorem updateProfile_noTokenDropped (s : AppState) (uid : Nat)
    (nm em : Option String) :
    noTokenDropped s.users (updateCurrentUserProfile s uid nm em).2.users := by
  cases hfind : s.users.find? (fun u => u.id == uid) with
  | none =>
    simp only [updateCurrentUserProfile, hfind]
    exact noTokenDropped_refl _
  | some u =>
    by_cases hc : (!falsy em && !(em.getD "" == u.email)) = true
    · cases hfe : s.users.find? (fun v => v.email == em.getD "" && !(v.id == uid)) with
      | some w =>
        simp only [updateCurrentUserProfile, hfind, if_pos hc, hfe]
        exact noTokenDropped_refl _
      | none =>
        simp only [updateCurrentUserProfile, hfind, if_pos hc, hfe]
        exact noTokenDropped_updateFirstBy _ _
          (fun v t ht => by rw [applyProfileEdit_tokens]; exact ht) s.users
    · simp only [updateCurrentUserProfile, hfind, if_neg hc]
      exact noTokenDropped_updateFirstBy _ _
        (fun v t ht => by rw [applyProfileEdit_tokens]; exact ht) s.users

/-- C2: for a login with an email absent from the store and a login with an
existing user's email but a password whose comparison against the stored
digest fails, `loginUser` returns responses with the identical message text
and the identical 401 status. -/
theorem C2_login_failure_indistinguishable (s : AppState) (e₁ p₁ e₂ p₂ : String)
    (u : UserRec)
    (h₁ : s.users.find? (fun v => v.email == e₁) = none)
    (h₂ : s.users.find? (fun v => v.email == e₂) = some u)
    (h₃ : comparePassword p₂ u.password = false)
    (now₁ now₂ : Nat) (cfg : Config) :
    (loginUser s e₁ p₁ now₁ cfg).1.message = (loginUser s e₂ p₂ now₂ cfg).1.message ∧
    (loginUser s e₁ p₁ now₁ cfg).1.status = 401 ∧
    (loginUser s e₂ p₂ now₂ cfg).1.status = 401 := by
  unfold loginUser
  rw [h₁, h₂]
  simp [h₃, sendErrorResponse]

/-- Witness for C2 at a concrete store: an unknown email with an arbitrary
password and `alice`'s email with a wrong password draw the same response. -/
theorem C2_witness :
    (loginUser st0 "nope@x.com" "anything" 0 cfg0).1.message =
      (loginUser st0 "alice@example.com" "wrongpass" 5 cfg0).1.message ∧
    (loginUser st0 "nope@x.com" "anything" 0 cfg0).1.status = 401 ∧
    (loginUser st0 "alice@example.com" "wrongpass" 5 cfg0).1.status = 401 :=
  C2_login_failure_indistinguishable st0 "nope@x.com" "anything"
    "alice@example.com" "wrongpass" alice (by decide) (by decide) (by decide) 0 5 cfg0

/-- C3 (code bug): the in-memory revision of `getAllUsers` sends the raw
user array; on the seeded store the successful listing payload still carries
the `password` and `refreshTokens` keys, against the sanitization guarantee
stated by the claim and by the repository's own SECURITY.md. -/
theorem C3_listing_exposes_password_and_tokens :
    (getAllUsers seedState).status = 200 ∧
    (getAllUsers seedState).success = true ∧
    (getAllUsers seedState).data = JVal.jarr [userToJson seedUser] ∧
    JVal.hasKey "password" (userToJson seedUser) = true ∧
    JVal.hasKey "refreshTokens" (userToJson seedUser) = true :=
  ⟨rfl, rfl, rfl, by decide, by decide⟩

/-- C4 (code bug): `"Password123"` satisfies all four policy conditions the
claim names — length at least 8, an uppercase letter, a lowercase letter,
a digit — yet `hashPassword` rejects it with the weak-credential error,
because the `isStrongPassword` options in force keep the library default
`minSymbols := 1`.  The repository's own validation unit test and the
SECURITY.md examples expect this password to be accepted. -/
theorem C4_symbol_free_password_rejected :
    8 ≤ "Password123".length ∧
    (∃ c ∈ "Password123".data, isUpperChar c = true) ∧
    (∃ c ∈ "Password123".data, isLowerChar c = true) ∧
    (∃ c ∈ "Password123".data, isDigitChar c = true) ∧
    hashPassword "Password123" =
      Except.error
        "Password must contain uppercase, lowercase, number, and special character" :=
  ⟨by decide, by decide, by decide, by decide, rfl⟩

/-- C7: when the two signing secrets differ, a refresh token never passes
access verification and an access token never passes refresh verification,
and the refresh token's signed payload carries the user id only (no email,
no role). -/
theorem C7_cross_use_rejected (cfg : Config)
    (h : cfg.jwtSecret ≠ cfg.jwtRefreshSecret) (u : UserIdentity) (now now' : Nat) :
    verifyToken (generateRefreshToken u now cfg) now' cfg =
      Except.error "Invalid or expired token" ∧
    verifyRefreshToken (generateToken u now cfg) now' cfg =
      Except.error "Invalid or expired refresh token" ∧
    (generateRefreshToken u now cfg).payload.email = none ∧
    (generateRefreshToken u now cfg).payload.role = none := by
  refine ⟨?_, ?_, rfl, rfl⟩
  · unfold verifyToken generateRefreshToken
    rw [if_neg]
    rintro ⟨hsec, _⟩
    exact h hsec.symm
  · unfold verifyRefreshToken generateToken
    rw [if_neg]
    rintro ⟨hsec, _⟩
    exact h hsec

/-- Witness for C7 under the concrete configuration `cfg0`, whose two
secrets differ. -/
theorem C7_witness :
    verifyToken (generateRefreshToken uid0 0 cfg0) 10 cfg0 =
      Except.error "Invalid or expired token" ∧
    verifyRefreshToken (generateToken uid0 0 cfg0) 10 cfg0 =
      Except.error "Invalid or expired refresh token" ∧
    (generateRefreshToken uid0 0 cfg0).payload.email = none ∧
    (generateRefreshToken uid0 0 cfg0).payload.role = none :=
  C7_cross_use_rejected cfg0 (by decide) uid0 0 10

/-- C8: an access token issued at `now` verifies at every time strictly
before `now + jwtExpiresIn` and yields the signed claims (in particular the
original id), and fails with the invalid-token error at every time at or
after the expiry. -/
theorem C8_access_token_roundtrip (cfg : Config) (u : UserIdentity) (now now' : Nat) :
    (now' < now + cfg.jwtExpiresIn →
      verifyToken (generateToken u now cfg) now' cfg =
        Except.ok { id := u.id, email := some u.email, role := some u.role
                    iat := now, exp := now + cfg.jwtExpiresIn }) ∧
    (now + cfg.jwtExpiresIn ≤ now' →
      verifyToken (generateToken u now cfg) now' cfg =
        Except.error "Invalid or expired token") := by
  constructor
  · intro hlt
    unfold verifyToken generateToken
    rw [if_pos ⟨rfl, hlt⟩]
  · intro hge
    unfold verifyToken generateToken
    rw [if_neg]
    rintro ⟨-, hlt⟩
    exact absurd (hlt : now' < now + cfg.jwtExpiresIn) (Nat.not_lt.mpr hge)

/-- Witness for C8: under `cfg0` an access token issued at 0 verifies at 10
with id 1, and is rejected at its expiry time 3600. -/
theorem C8_witness :
    verifyToken (generateToken uid0 0 cfg0) 10 cfg0 =
      Except.ok { id := 1, email := some "alice@example.com"
                  role := some "User", iat := 0, exp := 3600 } ∧
    verifyToken (generateToken uid0 0 cfg0) 3600 cfg0 =
      Except.error "Invalid or expired token" :=
  ⟨(C8_access_token_roundtrip cfg0 uid0 0 10).1 (by decide),
   (C8_access_token_roundtrip cfg0 uid0 0 3600).2 (by decide)⟩

/-- Counterexample to C9 as stated: the header `Basic xyz` does not carry the
`Bearer` scheme (its first space-separated word is `Basic`), yet the gate
does not fail with 401 `NoToken` before verification: it extracts `xyz`,
attempts verification, and denies with 403 `Invalid token`. -/
theorem C9_counterexample :
    (jsSplit "Basic xyz" ' ').get? 0 = some "Basic" ∧
    "Basic" ≠ "Bearer" ∧
    authenticateToken (some "Basic xyz") 0 cfg0 =
      GateOutcome.deny 403 "Invalid token" :=
  ⟨by decide, by decide, by decide⟩

/-- C9 (amended): the gate fails 401 `No token provided` exactly when no
credential is extracted (header absent, no second space-separated part, or
an empty one) — the scheme word itself is never compared against `Bearer`;
whenever a credential is extracted, it is verified: failure denies with 403
`Invalid token`, success attaches the decoded claims, and the role check
runs only on the outcome of a successful authentication. -/
theorem C9_gate_stages (header : Option String) (now : Nat) (cfg : Config)
    (roles : List String) :
    (extractToken header = none →
      authenticateToken header now cfg = GateOutcome.deny 401 "No token provided") ∧
    (∀ ts, extractToken header = some ts →
      (∀ e, verifyTokenStr ts now cfg = Except.error e →
        authenticateToken header now cfg = GateOutcome.deny 403 "Invalid token") ∧
      (∀ c, verifyTokenStr ts now cfg = Except.ok c →
        authenticateToken header now cfg = GateOutcome.allow c)) ∧
    (∀ st m, authenticateToken header now cfg = GateOutcome.deny st m →
      protectedGate roles header now cfg = GateOutcome.deny st m) ∧
    (∀ c, authenticateToken header now cfg = GateOutcome.allow c →
      protectedGate roles header now cfg = authorizeRole roles (some c)) := by
  refine ⟨?_, ?_, ?_, ?_⟩
  · intro h
    unfold authenticateToken
    rw [h]
  · intro ts hts
    have hred : authenticateToken header now cfg =
        (match verifyTokenStr ts now cfg with
          | Except.error _ => GateOutcome.deny 403 "Invalid token"
          | Except.ok decoded => GateOutcome.allow decoded) := by
      unfold authenticateToken
      rw [hts]
    constructor
    · intro e he
      rw [hred, he]
    · intro c hc
      rw [hred, hc]
  · intro st m h
    unfold protectedGate
    rw [h]
  · intro c h
    unfold protectedGate
    rw [h]

/-- Witness for C9 (amended) at concrete headers: an absent header denies
401, and the two-part non-Bearer header is denied 403 by the composed gate. -/
theorem C9_witness :
    authenticateToken none 0 cfg0 = GateOutcome.deny 401 "No token provided" ∧
    protectedGate ["Admin"] (some "Basic xyz") 0 cfg0 =
      GateOutcome.deny 403 "Invalid token" :=
  ⟨(C9_gate_stages none 0 cfg0 ["Admin"]).1 rfl,
   (C9_gate_stages (some "Basic xyz") 0 cfg0 ["Admin"]).2.2.1 403 "Invalid token"
     (by decide)⟩

/-- Counterexample to C5: the store holds a user with email
`Alice@example.com`; registering `alice@example.com` — equal up to letter
case, different as a string — succeeds with 201 and appends a second user
instead of failing with 409. -/
theorem C5_counterexample :
    lowerStr "alice@example.com" = lowerStr "Alice@example.com" ∧
    "alice@example.com" ≠ "Alice@example.com" ∧
    (createUser mixedCaseState lowerCaseReq 0 cfg0).1.status = 201 ∧
    (createUser mixedCaseState lowerCaseReq 0 cfg0).2.users.length = 2 :=
  ⟨by decide, by decide, by decide, by decide⟩

/-- C5 (amended): the duplicate check of `createUser` is exact string
equality on the email field: for a request with present name, email and
password, registration fails with `Email already exists` 409 and leaves the
store unchanged precisely when some stored user's email equals the request
email byte-for-byte; emails differing only in letter case do not trigger
the 409. -/
theorem C5_duplicate_check_exact (s : AppState) (req : RegisterRequest)
    (now : Nat) (cfg : Config) (e : String) (hemail : req.email = some e)
    (hn : falsy req.name = false) (he : falsy req.email = false)
    (hp : falsy req.password = false) :
    ((createUser s req now cfg).1.status = 409 ∧ (createUser s req now cfg).2 = s)
      ↔ ∃ u ∈ s.users, u.email = e := by
  unfold createUser
  rw [hn, he, hp, hemail]
  simp only [Option.getD_some, Bool.or_self, Bool.or_false, Bool.false_or,
    Bool.false_eq_true, not_false_iff, ite_false]
  cases hfind : s.users.find? (fun u => u.email == e) with
  | some u =>
    constructor
    · intro _
      refine ⟨u, List.mem_of_find?_eq_some hfind, ?_⟩
      have := List.find?_some hfind
      exact eq_of_beq this
    · intro _
      exact ⟨rfl, rfl⟩
  | none =>
    constructor
    · intro h
      cases hh : hashPassword (req.password.getD "") with
      | error msg =>
        rw [hh] at h
        have h500 : (500 : Nat) = 409 := h.1
        exact absurd h500 (by decide)
      | ok digest =>
        rw [hh] at h
        have h201 : (201 : Nat) = 409 := h.1
        exact absurd h201 (by decide)
    · rintro ⟨u, hu, rfl⟩
      have := List.find?_eq_none.mp hfind u hu
      simp at this

/-- Witness for C5 (amended): a byte-for-byte duplicate email is rejected
with 409 and the store is unchanged. -/
theorem C5_witness :
    (createUser mixedCaseState exactDupReq 0 cfg0).1.status = 409 ∧
    (createUser mixedCaseState exactDupReq 0 cfg0).2 = mixedCaseState :=
  (C5_duplicate_check_exact mixedCaseState exactDupReq 0 cfg0 "Alice@example.com"
    rfl (by decide) (by decide) (by decide)).mpr
    ⟨mixedCaseUser, by simp [mixedCaseState], rfl⟩

/-- C10: a register request with all required fields present, no stored user
with the same email, and a policy-passing password creates the user with
exactly the requested role string taken verbatim from the body (no
enumeration restriction and no authorization input exists in the
signature); only a falsy role field falls back to `User`. -/
theorem C10_role_taken_verbatim (s : AppState) (req : RegisterRequest)
    (now : Nat) (cfg : Config)
    (hn : falsy req.name = false) (he : falsy req.email = false)
    (hp : falsy req.password = false)
    (hdup : s.users.find? (fun u => u.email == req.email.getD "") = none)
    (hpw : (isValidPassword (req.password.getD "")).isValid = true) :
    (createUser s req now cfg).1.status = 201 ∧
    ∃ nu : UserRec,
      (createUser s req now cfg).2.users = s.users ++ [nu] ∧
      nu.role = (if falsy req.role = true then "User" else req.role.getD "") := by
  have hhash := hashPassword_ok _ hpw
  unfold createUser
  rw [hn, he, hp]
  simp only [Bool.or_self, Bool.false_eq_true, not_false_iff, ite_false, hdup, hhash]
  refine ⟨rfl, _, rfl, ?_⟩
  cases hr : req.role with
  | none => simp [falsy]
  | some r =>
    by_cases hre : r = ""
    · simp [falsy, hre]
    · simp [falsy, hre]

/-- Witness for C10: a request self-assigning the `Admin` role registers
with 201 against the seeded store and stores role `Admin` verbatim. -/
theorem C10_witness :
    (createUser seedState adminReq 0 cfg0).1.status = 201 ∧
    ∃ nu : UserRec,
      (createUser seedState adminReq 0 cfg0).2.users = seedState.users ++ [nu] ∧
      nu.role = (if falsy adminReq.role = true then "User" else adminReq.role.getD "") :=
  C10_role_taken_verbatim seedState adminReq 0 cfg0
    (by decide) (by decide) (by decide) (by decide) (by decide)

/-- Counterexample to C6 as stated: a successful refresh under the concrete
store carries not only the fresh access token — its data object also holds
the `email` key, so the response is not exactly `{accessToken}`. -/
theorem C6_counterexample :
    (refreshAccessToken st0 (some rt0) 20 cfg0).1.success = true ∧
    JVal.hasKey "accessToken" (refreshAccessToken st0 (some rt0) 20 cfg0).1.data = true ∧
    JVal.hasKey "email" (refreshAccessToken st0 (some rt0) 20 cfg0).1.data = true :=
  ⟨by decide, by decide, by decide⟩

/-- C6 (amended): every refresh leaves the store unchanged (the presented
refresh token is neither rotated, removed nor replaced); a successful
refresh responds 200 with a data object whose keys are exactly `email` and
`accessToken`; and among the state-changing operations, registration, login
and profile update never remove a token from any user's collection — logout
is the only remover. -/
theorem C6_refresh_frame (s : AppState) (tok : Option SignedToken) (now : Nat)
    (cfg : Config) :
    (refreshAccessToken s tok now cfg).2 = s ∧
    ((refreshAccessToken s tok now cfg).1.success = true →
      (refreshAccessToken s tok now cfg).1.status = 200 ∧
      JVal.objKeys (refreshAccessToken s tok now cfg).1.data = ["email", "accessToken"]) ∧
    (∀ req, noTokenDropped s.users (createUser s req now cfg).2.users) ∧
    (∀ e p, noTokenDropped s.users (loginUser s e p now cfg).2.users) ∧
    (∀ uid nm em, noTokenDropped s.users (updateCurrentUserProfile s uid nm em).2.users) :=
  ⟨refreshAccessToken_state s tok now cfg,
   refreshAccessToken_success_shape s tok now cfg,
   fun req => createUser_noTokenDropped s req now cfg,
   fun e p => loginUser_noTokenDropped s e p now cfg,
   fun uid nm em => updateProfile_noTokenDropped s uid nm em⟩

/-- Witness for C6 (amended) at a concrete successful refresh: the store is
returned unchanged and the success payload has exactly the `email` and
`accessToken` keys at status 200. -/
theorem C6_witness :
    (refreshAccessToken st0 (some rt0) 20 cfg0).2 = st0 ∧
    (refreshAccessToken st0 (some rt0) 20 cfg0).1.status = 200 ∧
    JVal.objKeys (refreshAccessToken st0 (some rt0) 20 cfg0).1.data =
      ["email", "accessToken"] :=
  ⟨(C6_refresh_frame st0 (some rt0) 20 cfg0).1,
   ((C6_refresh_frame st0 (some rt0) 20 cfg0).2.1 (by decide)).1,
   ((C6_refresh_frame st0 (some rt0) 20 cfg0).2.1 (by decide)).2⟩

/-- C1: when a logout with refresh token `tok` succeeds (status 200), every
subsequent refresh presenting the same token against the resulting store
fails with status 401 and carries no data — in particular no access token
is issued — at every later clock value. -/
theorem C1_logout_revokes_refresh (s : AppState) (tok : SignedToken) (now : Nat)
    (cfg : Config) (r : ApiResponse) (s' : AppState)
    (h : logoutUser s (some tok) now cfg = (r, s')) (hs : r.status = 200)
    (now' : Nat) :
    (refreshAccessToken s' (some tok) now' cfg).1.status = 401 ∧
    (refreshAccessToken s' (some tok) now' cfg).1.data = JVal.jnull := by
  cases hv : verifyRefreshToken tok now cfg with
  | error e =>
    simp only [logoutUser, hv] at h
    rw [Prod.mk.injEq] at h
    rw [← h.1] at hs
    exact absurd (hs : (401 : Nat) = 200) (by decide)
  | ok d =>
    obtain ⟨hd, -, -⟩ := verifyRefreshToken_ok tok now cfg d hv
    cases hf : s.users.find? (fun u => u.id == d.id) with
    | none =>
      simp only [logoutUser, hv, hf] at h
      rw [Prod.mk.injEq] at h
      rw [← h.1] at hs
      exact absurd (hs : (401 : Nat) = 200) (by decide)
    | some u =>
      by_cases hc : u.refreshTokens.contains tok = true
      · simp only [logoutUser, hv, hf, if_pos hc] at h
        rw [Prod.mk.injEq] at h
        have hs' : s'.users = updateFirstBy (fun v => v.id == d.id)
            (fun v => { v with refreshTokens :=
                v.refreshTokens.filter (fun t => !(t == tok)) }) s.users := by
          rw [← h.2]
        have hpu := List.find?_some hf
        have hfind' : s'.users.find? (fun v => v.id == d.id) =
            some { u with refreshTokens :=
              u.refreshTokens.filter (fun t => !(t == tok)) } := by
          rw [hs']
          exact find?_updateFirstBy _ _ s.users u hf hpu
        cases hv' : verifyRefreshToken tok now' cfg with
        | error e' =>
          simp only [refreshAccessToken, hv']
          exact ⟨rfl, rfl⟩
        | ok d' =>
          obtain ⟨hd', -, -⟩ := verifyRefreshToken_ok tok now' cfg d' hv'
          subst hd'
          subst hd
          simp only [refreshAccessToken, hv', hfind']
          rw [if_neg]
          · exact ⟨rfl, rfl⟩
          · rw [contains_filter_ne_self]
            exact Bool.false_ne_true
      · simp only [logoutUser, hv, hf, if_neg hc] at h
        rw [Prod.mk.injEq] at h
        rw [← h.1] at hs
        exact absurd (hs : (401 : Nat) = 200) (by decide)

/-- Witness for C1: `alice` logs out with `rt0` at time 10 (status 200), and
the refresh with `rt0` at time 20 against the post-logout store is denied
with 401 and a null payload. -/
theorem C1_witness :
    (refreshAccessToken st1 (some rt0) 20 cfg0).1.status = 401 ∧
    (refreshAccessToken st1 (some rt0) 20 cfg0).1.data = JVal.jnull :=
  C1_logout_revokes_refresh st0 rt0 10 cfg0
    (logoutUser st0 (some rt0) 10 cfg0).1 st1 rfl (by decide) 20

end UserMgmt
